import Mathlib

/-!
Verification of the Content Intelligence Analysis Engine of the
`confluence_enhancer_ai` repository.

Each definition in this file is a shallow embedding of a Python function of
the repository (the source file and function are named in its doc comment).
Machine floats of the source are modelled as `ℚ` (all constants appearing in
the relevant code paths are exactly representable), Python `None`-able values
as `Option`, and functions that can raise as `Except`.  Regular-expression
scanning (the part of the detector that *finds* matches) is modelled by
quantifying over an arbitrary list of raw match records, since none of the
verified properties depend on which matches the scanner produces.
-/

/-! ## Generic string helpers -/

/-- Python's `needle in hay` substring test, on character lists. -/
def containsSub (hay needle : List Char) : Bool :=
  hay.tails.any (fun t => needle.isPrefixOf t)

/-- Python's `str.strip()`: drop leading and trailing whitespace (defined on
the character list so that it evaluates inside the kernel). -/
def pyStrip (s : String) : String :=
  String.mk (((s.toList.dropWhile Char.isWhitespace).reverse.dropWhile
    Char.isWhitespace).reverse)

/-- Python's `str.lower()` on the character list. -/
def pyLower (s : String) : String :=
  String.mk (s.toList.map Char.toLower)

/-- Python's `str.split()` with no argument: split on whitespace runs,
dropping empty fragments. -/
def splitWords (s : String) : List String :=
  ((s.toList.splitOnP Char.isWhitespace).map String.mk).filter (fun w => w ≠ "")

/-! ## Technology detector (`src/src/modernization/tech_analyzer.py`) -/

/-- Subset of the `TechnologyInfo` dataclass fields that the analysis pipeline
populates for a detection (`name`, `version`, `category`). -/
structure TechnologyInfo where
  name : String
  version : Option String
  category : String
deriving DecidableEq, Repr

/-- The `TechnologyDetection` dataclass (the `suggestions` payload, which no
verified property touches, is omitted). -/
structure TechnologyDetection where
  technology : TechnologyInfo
  confidence : ℚ
  context : String
  line_number : Nat
deriving DecidableEq, Repr

/-- One raw regex match, as produced by `re.finditer` inside
`TechAnalyzer.analyze_technology_stack`: the signature key (`tech_name`), the
pattern that fired, `match.group()`, `match.start()`, `match.end()`, and the
version string extracted from the match text by `_extract_version`.  The
regex engine and the version-shape extraction are abstracted by quantifying
over this record; every theorem below holds for all of its values. -/
structure RawMatch where
  tech_name : String
  pattern : String
  matched : String
  start : Nat
  stop : Nat
  version : Option String
deriving DecidableEq, Repr

/-- `TechAnalyzer._categorize_technology`. -/
def categorizeTechnology (tech_name : String) : String :=
  if ["python", "java", "javascript", "typescript", "php", "ruby", "go"].contains tech_name then
    "programming_language"
  else if ["react", "angular", "vue", "ember", "svelte"].contains tech_name then
    "frontend_framework"
  else if ["spring", "django", "flask", "express", "rails"].contains tech_name then
    "backend_framework"
  else if ["mysql", "postgresql", "mongodb", "oracle", "sqlserver"].contains tech_name then
    "database"
  else if ["docker", "kubernetes", "jenkins", "terraform"].contains tech_name then
    "infrastructure"
  else if ["aws", "azure", "gcp"].contains tech_name then
    "cloud_platform"
  else
    "unknown"

/-- `TechAnalyzer._find_line_number`: `text[:position].count('\n') + 1`. -/
def findLineNumber (text : String) (position : Nat) : Nat :=
  ((text.toList.take position).count '\n') + 1

/-- `TechAnalyzer._extract_context`: two lines of context around the
detection, joined and stripped. -/
def extractContext (lines : List String) (line_number : Nat) : String :=
  let start_line := line_number - 2
  let end_line := min lines.length (line_number + 2)
  pyStrip (String.intercalate "\n" ((lines.drop start_line).take (end_line - start_line)))

/-- The `context_window = content[max(0, match.start() - 50):match.end() + 50]`
slice of `_calculate_confidence`. -/
def contextWindow (content_text : String) (m : RawMatch) : List Char :=
  let a := m.start - 50
  (content_text.toList.drop a).take (m.stop + 50 - a)

/-- The contextual keywords of `_calculate_confidence`. -/
def confidenceKeywords : List String :=
  ["install", "version", "upgrade", "dependency"]

/-- The `any(keyword in context_window for keyword in [...])` test of
`_calculate_confidence`. -/
def hasContextKeyword (content_text : String) (m : RawMatch) : Bool :=
  confidenceKeywords.any (fun k => containsSub (contextWindow content_text m) k.toList)

/-- `TechAnalyzer._calculate_confidence`, line by line: base 0.5, then
`+0.2` when `re.search(r'[0-9]+', pattern)` fires (the pattern string
contains a digit character), `+0.2` when `match.group() == pattern`, `+0.1`
when a contextual keyword occurs in the window, finally `min(1.0, ...)`. -/
def calcConfidence (content_text : String) (m : RawMatch) : ℚ :=
  let base : ℚ := 1/2
  let base := if m.pattern.toList.any Char.isDigit then base + 1/5 else base
  let base := if m.matched = m.pattern then base + 1/5 else base
  let base := if hasContextKeyword content_text m then base + 1/10 else base
  min 1 base

/-- Construction of one `TechnologyDetection` from a raw match, as done in
the loop body of `analyze_technology_stack`. -/
def mkDetection (raw_text : String) (m : RawMatch) : TechnologyDetection :=
  let content_text := pyLower raw_text
  let line_number := findLineNumber raw_text m.start
  { technology :=
      { name := m.tech_name
        version := m.version
        category := categorizeTechnology m.tech_name }
    confidence := calcConfidence content_text m
    context := extractContext (raw_text.splitOn "\n") line_number
    line_number := line_number }

/-- The dictionary key `f"{name}_{version or 'no_version'}"` used by
`TechAnalyzer._deduplicate_detections`. -/
def dedupKey (d : TechnologyDetection) : String :=
  d.technology.name ++ "_" ++ d.technology.version.getD "no_version"

/-- One step of `_deduplicate_detections`: insert a detection into the
insertion-ordered `unique_detections` dictionary, keeping for an existing key
the detection with the strictly higher confidence. -/
def insertDetection : List TechnologyDetection → TechnologyDetection → List TechnologyDetection
  | [], d => [d]
  | e :: rest, d =>
    if dedupKey e = dedupKey d then
      (if e.confidence < d.confidence then d else e) :: rest
    else
      e :: insertDetection rest d

/-- `TechAnalyzer._deduplicate_detections`: fold the detections into an
insertion-ordered dictionary keyed by `dedupKey` and return its values. -/
def deduplicateDetections (detections : List TechnologyDetection) : List TechnologyDetection :=
  detections.foldl insertDetection []

/-- `TechAnalyzer.analyze_technology_stack`: build one detection per raw
match, then deduplicate. -/
def analyzeTechnologyStack (raw_text : String) (ms : List RawMatch) :
    List TechnologyDetection :=
  deduplicateDetections (ms.map (mkDetection raw_text))

/-- The (technology key, extracted version) pair that the specification's
deduplication invariant speaks about. -/
def detPair (d : TechnologyDetection) : String × Option String :=
  (d.technology.name, d.technology.version)

/-! ## Lemmas about deduplication -/

theorem mem_insertDetection {acc : List TechnologyDetection} {d a : TechnologyDetection}
    (h : a ∈ insertDetection acc d) : a ∈ acc ∨ a = d := by
  induction acc with
  | nil => simpa [insertDetection] using h
  | cons e rest ih =>
    simp only [insertDetection] at h
    by_cases hk : dedupKey e = dedupKey d
    · rw [if_pos hk] at h
      rcases List.mem_cons.mp h with h1 | h1
      · by_cases hc : e.confidence < d.confidence
        · rw [if_pos hc] at h1; exact Or.inr h1
        · rw [if_neg hc] at h1; exact Or.inl (by simp [h1])
      · exact Or.inl (List.mem_cons_of_mem _ h1)
    · rw [if_neg hk] at h
      rcases List.mem_cons.mp h with h1 | h1
      · exact Or.inl (by simp [h1])
      · rcases ih h1 with h2 | h2
        · exact Or.inl (List.mem_cons_of_mem _ h2)
        · exact Or.inr h2

theorem pairwise_insertDetection {acc : List TechnologyDetection}
    (h : List.Pairwise (fun a b => dedupKey a ≠ dedupKey b) acc) (d : TechnologyDetection) :
    List.Pairwise (fun a b => dedupKey a ≠ dedupKey b) (insertDetection acc d) := by
  induction acc with
  | nil => simp [insertDetection]
  | cons e rest ih =>
    rcases List.pairwise_cons.mp h with ⟨he, hrest⟩
    simp only [insertDetection]
    by_cases hk : dedupKey e = dedupKey d
    · rw [if_pos hk]
      refine List.pairwise_cons.mpr ⟨?_, hrest⟩
      intro x hx
      by_cases hc : e.confidence < d.confidence
      · rw [if_pos hc, ← hk]; exact he x hx
      · rw [if_neg hc]; exact he x hx
    · rw [if_neg hk]
      refine List.pairwise_cons.mpr ⟨?_, ih hrest⟩
      intro x hx
      rcases mem_insertDetection hx with h1 | h1
      · exact he x h1
      · rw [h1]; exact hk

theorem dominator_insertDetection_old {acc : List TechnologyDetection}
    {a : TechnologyDetection} (d : TechnologyDetection) (h : a ∈ acc) :
    ∃ b ∈ insertDetection acc d, dedupKey b = dedupKey a ∧ a.confidence ≤ b.confidence := by
  induction acc with
  | nil => cases h
  | cons e rest ih =>
    simp only [insertDetection]
    rcases List.mem_cons.mp h with rfl | h1
    · by_cases hk : dedupKey a = dedupKey d
      · rw [if_pos hk]
        by_cases hc : a.confidence < d.confidence
        · exact ⟨d, by simp [hc], hk.symm, le_of_lt hc⟩
        · exact ⟨a, by simp [hc], rfl, le_refl _⟩
      · rw [if_neg hk]
        exact ⟨a, List.mem_cons_self _ _, rfl, le_refl _⟩
    · by_cases hk : dedupKey e = dedupKey d
      · rw [if_pos hk]
        exact ⟨a, List.mem_cons_of_mem _ h1, rfl, le_refl _⟩
      · rw [if_neg hk]
        obtain ⟨b, hb, hbk, hbc⟩ := ih h1
        exact ⟨b, List.mem_cons_of_mem _ hb, hbk, hbc⟩

theorem dominator_insertDetection_new (acc : List TechnologyDetection)
    (d : TechnologyDetection) :
    ∃ b ∈ insertDetection acc d, dedupKey b = dedupKey d ∧ d.confidence ≤ b.confidence := by
  induction acc with
  | nil => exact ⟨d, by simp [insertDetection], rfl, le_refl _⟩
  | cons e rest ih =>
    simp only [insertDetection]
    by_cases hk : dedupKey e = dedupKey d
    · rw [if_pos hk]
      by_cases hc : e.confidence < d.confidence
      · exact ⟨d, by simp [hc], rfl, le_refl _⟩
      · exact ⟨e, by simp [hc], hk, le_of_not_lt hc⟩
    · rw [if_neg hk]
      obtain ⟨b, hb, hbk, hbc⟩ := ih
      exact ⟨b, List.mem_cons_of_mem _ hb, hbk, hbc⟩

theorem dominator_foldl (l : List TechnologyDetection) :
    ∀ (acc : List TechnologyDetection) (a : TechnologyDetection),
      (∃ b ∈ acc, dedupKey b = dedupKey a ∧ a.confidence ≤ b.confidence) →
      ∃ b ∈ List.foldl insertDetection acc l,
        dedupKey b = dedupKey a ∧ a.confidence ≤ b.confidence := by
  induction l with
  | nil => intro acc a h; simpa using h
  | cons d rest ih =>
    intro acc a h
    obtain ⟨b, hb, hbk, hbc⟩ := h
    obtain ⟨b', hb', hbk', hbc'⟩ := dominator_insertDetection_old d hb
    exact ih (insertDetection acc d) a ⟨b', hb', by rw [hbk', hbk], le_trans hbc hbc'⟩

theorem input_dominated (l : List TechnologyDetection) :
    ∀ (acc : List TechnologyDetection) (e : TechnologyDetection), e ∈ l →
      ∃ b ∈ List.foldl insertDetection acc l,
        dedupKey b = dedupKey e ∧ e.confidence ≤ b.confidence := by
  induction l with
  | nil => intro acc e h; cases h
  | cons d rest ih =>
    intro acc e he
    rcases List.mem_cons.mp he with rfl | h1
    · exact dominator_foldl rest _ e (dominator_insertDetection_new acc e)
    · exact ih _ e h1

theorem pairwise_foldl (l : List TechnologyDetection) :
    ∀ acc : List TechnologyDetection,
      List.Pairwise (fun a b => dedupKey a ≠ dedupKey b) acc →
      List.Pairwise (fun a b => dedupKey a ≠ dedupKey b) (List.foldl insertDetection acc l) := by
  induction l with
  | nil => intro acc h; simpa using h
  | cons d rest ih => intro acc h; exact ih _ (pairwise_insertDetection h d)

theorem mem_foldl_insertDetection (l : List TechnologyDetection) :
    ∀ (acc : List TechnologyDetection) (a : TechnologyDetection),
      a ∈ List.foldl insertDetection acc l → a ∈ acc ∨ a ∈ l := by
  induction l with
  | nil => intro acc a h; exact Or.inl (by simpa using h)
  | cons d rest ih =>
    intro acc a h
    rcases ih _ a h with h1 | h1
    · rcases mem_insertDetection h1 with h2 | h2
      · exact Or.inl h2
      · exact Or.inr (by simp [h2])
    · exact Or.inr (List.mem_cons_of_mem _ h1)

theorem detPair_eq_dedupKey_eq {a b : TechnologyDetection} (h : detPair a = detPair b) :
    dedupKey a = dedupKey b := by
  simp only [detPair, Prod.mk.injEq] at h
  simp only [dedupKey, h.1, h.2]

/-! ## Claim C1: deduplication invariant -/

/-- C1: for every input, the list returned by the technology detector after
deduplication contains at most one Detection per (technology key, extracted
version) pair, and the Detection kept for a pair has confidence greater than
or equal to the confidence of every other Detection produced for that pair.
Stated for every list of produced detections, hence in particular for the
list the detector builds from the regex matches. -/
theorem detect_dedup_unique_and_max (l : List TechnologyDetection) :
    List.Pairwise (fun a b => detPair a ≠ detPair b) (deduplicateDetections l) ∧
    ∀ d ∈ deduplicateDetections l, ∀ e ∈ l,
      detPair e = detPair d → e.confidence ≤ d.confidence := by
  have hkey : List.Pairwise (fun a b => dedupKey a ≠ dedupKey b) (deduplicateDetections l) :=
    pairwise_foldl l [] (by simp)
  have hsymm : Symmetric (fun a b : TechnologyDetection => dedupKey a ≠ dedupKey b) :=
    fun a b h => Ne.symm h
  refine ⟨hkey.imp (fun h h' => h (detPair_eq_dedupKey_eq h')), ?_⟩
  intro d hd e he hpair
  obtain ⟨b, hb, hbk, hbc⟩ := input_dominated l [] e he
  have hkd : dedupKey b = dedupKey d := by
    rw [hbk]; exact detPair_eq_dedupKey_eq hpair
  by_cases hdb : d = b
  · subst hdb; exact hbc
  · exact absurd hkd.symm (hkey.forall hsymm hd hb hdb)

/-- A low-confidence detection of python 2.7, for the C1 witness. -/
def detPy27low : TechnologyDetection :=
  ⟨⟨"python", some "2.7", "programming_language"⟩, 1/2, "", 1⟩

/-- A higher-confidence detection of the same (key, version) pair. -/
def detPy27high : TechnologyDetection :=
  ⟨⟨"python", some "2.7", "programming_language"⟩, 7/10, "python 2.7", 1⟩

/-- Witness for C1 at a concrete input: of two detections of the same
(key, version) pair the deduplicated list keeps the higher-confidence one,
and the dominance conclusion of `detect_dedup_unique_and_max` applies. -/
theorem detect_dedup_unique_and_max_witness :
    detPy27high ∈ deduplicateDetections [detPy27low, detPy27high] ∧
    detPy27low.confidence ≤ detPy27high.confidence := by
  have hmem : detPy27high ∈ deduplicateDetections [detPy27low, detPy27high] := by
    norm_num [deduplicateDetections, insertDetection, dedupKey, detPy27low, detPy27high]
  exact ⟨hmem,
    (detect_dedup_unique_and_max [detPy27low, detPy27high]).2 detPy27high hmem
      detPy27low (by simp) rfl⟩

/-! ## Claim C10: confidence range -/

theorem calcConfidence_bounds (content_text : String) (m : RawMatch) :
    1/2 ≤ calcConfidence content_text m ∧ calcConfidence content_text m ≤ 1 := by
  simp only [calcConfidence]
  constructor
  · refine le_min (by norm_num) ?_
    split_ifs <;> norm_num
  · exact min_le_left _ _

/-- C10: every Detection returned by the technology detector has confidence
in [0.5, 1.0]: the computation starts at 0.5, adds only non-negative bonuses
and is capped at 1.0. -/
theorem detect_confidence_in_range (raw_text : String) (ms : List RawMatch) :
    ∀ d ∈ analyzeTechnologyStack raw_text ms,
      1/2 ≤ d.confidence ∧ d.confidence ≤ 1 := by
  intro d hd
  simp only [analyzeTechnologyStack, deduplicateDetections] at hd
  rcases mem_foldl_insertDetection _ [] d hd with h | h
  · exact absurd h (List.not_mem_nil d)
  · obtain ⟨m, _, rfl⟩ := List.mem_map.mp h
    simpa [mkDetection] using calcConfidence_bounds (pyLower raw_text) m

/-- The raw match of the pattern `jsx` of the `react` signature on the
one-word text `jsx`. -/
def mJsx : RawMatch := ⟨"react", "jsx", "jsx", 0, 3, none⟩

/-- Witness for C10 at a concrete input: the detection built from the `jsx`
match is returned by the detector and its confidence lies in [0.5, 1]. -/
theorem detect_confidence_in_range_witness :
    mkDetection "jsx" mJsx ∈ analyzeTechnologyStack "jsx" [mJsx] ∧
    (1/2 ≤ (mkDetection "jsx" mJsx).confidence ∧ (mkDetection "jsx" mJsx).confidence ≤ 1) := by
  have hmem : mkDetection "jsx" mJsx ∈ analyzeTechnologyStack "jsx" [mJsx] := by
    simp [analyzeTechnologyStack, deduplicateDetections, insertDetection]
  exact ⟨hmem, detect_confidence_in_range "jsx" [mJsx] _ hmem⟩

/-! ## Claim C4: the confidence formula -/

/-- The confidence formula exactly as claim C4 states it: base 0.5, `+0.2`
when the matched pattern encodes a version number (the code's test: the
pattern string contains a digit), `+0.2` when the raw matched text equals the
*signature key* verbatim, `+0.1` for a contextual keyword in the window,
capped at 1.0. -/
def claimConfidenceC4 (content_text : String) (m : RawMatch) : ℚ :=
  min 1 ((1/2 : ℚ)
    + (if m.pattern.toList.any Char.isDigit then 1/5 else 0)
    + (if m.matched = m.tech_name then 1/5 else 0)
    + (if hasContextKeyword content_text m then 1/10 else 0))

/-- Counterexample to C4 as stated: for the `jsx` pattern of the `react`
signature matching the text `jsx`, the code adds `+0.2` because the match
equals the *pattern* (confidence 0.7), while the claim's formula compares the
match against the signature key `react` and yields 0.5. -/
theorem calcConfidence_ne_claimConfidenceC4 :
    calcConfidence "jsx" mJsx ≠ claimConfidenceC4 "jsx" mJsx := by
  have h1 : calcConfidence "jsx" mJsx = 7/10 := by
    have hdig : (∃ x ∈ mJsx.pattern.data, x.isDigit = true) = False := eq_false (by decide)
    have hkw : hasContextKeyword "jsx" mJsx = false := by decide
    have hmatch : mJsx.matched = mJsx.pattern := by decide
    simp [calcConfidence, hdig, hkw, hmatch]
    norm_num [min_def]
  have h2 : claimConfidenceC4 "jsx" mJsx = 1/2 := by
    have hdig : (∃ x ∈ mJsx.pattern.data, x.isDigit = true) = False := eq_false (by decide)
    have hkw : hasContextKeyword "jsx" mJsx = false := by decide
    have hne : (mJsx.matched = mJsx.tech_name) = False := eq_false (by decide)
    simp [claimConfidenceC4, hdig, hkw, hne]
    norm_num [min_def]
  rw [h1, h2]; norm_num

/-- C4 amended: the detection confidence equals base 0.5, plus 0.2 if the
pattern string contains a digit, plus 0.2 if the raw matched text equals the
*matched pattern string* verbatim (not the signature key), plus 0.1 if a
contextual keyword occurs within the window, capped at 1.0. -/
theorem calcConfidence_closed_form (content_text : String) (m : RawMatch) :
    calcConfidence content_text m =
      min 1 ((1/2 : ℚ)
        + (if m.pattern.toList.any Char.isDigit then 1/5 else 0)
        + (if m.matched = m.pattern then 1/5 else 0)
        + (if hasContextKeyword content_text m then 1/10 else 0)) := by
  simp only [calcConfidence]
  split_ifs <;> norm_num

/-! ## Pattern classifier (`src/src/processors/data_extractor.py`) -/

/-- Numeric value of a digit string, most significant digit first. -/
def digitsVal (l : List Char) : Nat :=
  l.foldl (fun a c => 10 * a + (c.toNat - 48)) 0

/-- Python's `float()` on the plain decimal literals that reach it here
(optional sign, integer digits, optional fractional part; at least one digit).
Exponent and `inf`/`nan` forms, which no table cell in the verified
properties uses, are not modelled. -/
def parseDecimal (s : String) : Option ℚ :=
  let cs := s.toList
  let sgn : ℚ := if cs.head? = some '-' then -1 else 1
  let cs := if cs.head? = some '-' ∨ cs.head? = some '+' then cs.tail else cs
  let ip := cs.takeWhile Char.isDigit
  let r1 := cs.dropWhile Char.isDigit
  match r1 with
  | [] => if ip.isEmpty then none else some (sgn * digitsVal ip)
  | '.' :: fr =>
    let fp := fr.takeWhile Char.isDigit
    let r2 := fr.dropWhile Char.isDigit
    if r2.isEmpty ∧ ¬(ip.isEmpty ∧ fp.isEmpty) then
      some (sgn * ((digitsVal ip : ℚ) + (digitsVal fp : ℚ) / (10 : ℚ) ^ fp.length))
    else none
  | _ => none

/-- The cleaning step of `DataAnalyzer._is_numeric` / `_extract_numeric`:
`str(value).replace(',', '').replace('$', '').replace('%', '').strip()`. -/
def stripNumFormatting (s : String) : String :=
  pyStrip (String.mk (s.toList.filter (fun c => c ≠ ',' ∧ c ≠ '$' ∧ c ≠ '%')))

/-- `DataAnalyzer._is_numeric` on a non-null cell. -/
def isNumericStr (s : String) : Bool :=
  (parseDecimal (stripNumFormatting s)).isSome

/-- Consume exactly `n` digits from the front. -/
def consumeDigits : Nat → List Char → Option (List Char)
  | 0, cs => some cs
  | _ + 1, [] => none
  | n + 1, c :: cs => if c.isDigit then consumeDigits n cs else none

/-- Consume one fixed character from the front. -/
def consumeLit (ch : Char) : List Char → Option (List Char)
  | [] => none
  | c :: cs => if c = ch then some cs else none

/-- Consume `\d{1,2}` greedily followed by a slash, with the regex engine's
backtracking (two digits then `/`, otherwise one digit then `/`). -/
def consumeD12Slash (cs : List Char) : Option (List Char) :=
  match consumeDigits 2 cs >>= consumeLit '/' with
  | some r => some r
  | none => consumeDigits 1 cs >>= consumeLit '/'

/-- `re.match` (prefix match) of `\d{4}-\d{2}-\d{2}`. -/
def matchDateISO (cs : List Char) : Bool :=
  (consumeDigits 4 cs >>= consumeLit '-' >>= consumeDigits 2 >>= consumeLit '-'
    >>= consumeDigits 2).isSome

/-- `re.match` of `\d{2}/\d{2}/\d{4}`. -/
def matchDateSlash (cs : List Char) : Bool :=
  (consumeDigits 2 cs >>= consumeLit '/' >>= consumeDigits 2 >>= consumeLit '/'
    >>= consumeDigits 4).isSome

/-- `re.match` of `\d{2}-\d{2}-\d{4}`. -/
def matchDateDash (cs : List Char) : Bool :=
  (consumeDigits 2 cs >>= consumeLit '-' >>= consumeDigits 2 >>= consumeLit '-'
    >>= consumeDigits 4).isSome

/-- `re.match` of `\d{1,2}/\d{1,2}/\d{4}`. -/
def matchDateShortSlash (cs : List Char) : Bool :=
  (consumeD12Slash cs >>= consumeD12Slash >>= consumeDigits 4).isSome

/-- Test of a stripped cell against the four `date_patterns` of
`DataAnalyzer`. -/
def matchesAnyDate (s : String) : Bool :=
  let cs := (pyStrip s).toList
  matchDateISO cs || matchDateSlash cs || matchDateDash cs || matchDateShortSlash cs

/-- `DataAnalyzer._is_datetime_column`: at least 80% of a sample of up to 5
leading values match a date pattern (`count >= sample_size * 0.8`, exact in
rationals, written over naturals as `5*count >= 4*sample`). -/
def isDatetimeColumn (data : List String) : Bool :=
  let sample_size := min 5 data.length
  let cnt := ((data.take sample_size).filter matchesAnyDate).length
  decide (4 * sample_size ≤ 5 * cnt)

/-- `DataAnalyzer._is_numeric_column`: at least 80% of a sample of up to 10
leading values parse as numbers. -/
def isNumericColumn (data : List String) : Bool :=
  let sample_size := min 10 data.length
  let cnt := ((data.take sample_size).filter isNumericStr).length
  decide (4 * sample_size ≤ 5 * cnt)

/-- The inner format chain of `DataAnalyzer._detect_datetime_format` (it does
not depend on which pattern matched). -/
def dtFormatChain (str : String) : Option String :=
  if str.toList.contains '-' ∧ ((str.splitOn "-").headD "").length = 4 then
    some "YYYY-MM-DD"
  else if str.toList.contains '/' then some "MM/DD/YYYY"
  else if str.toList.contains '-' then some "MM-DD-YYYY"
  else none

/-- `DataAnalyzer._detect_datetime_format`: the loop returns the chain result
for the first matching pattern and falls through to `'unknown'`. -/
def detectDatetimeFormat (sample : String) : String :=
  let str := pyStrip sample
  if matchesAnyDate str then (dtFormatChain str).getD "unknown" else "unknown"

/-- The `ColumnProfile` result shapes of `DataAnalyzer._analyze_column`:
exactly one of the five column types, each with its type-specific stats. -/
inductive ColumnProfile where
  | empty (completeness : ℚ)
  | datetime (completeness : ℚ) (format : String)
  | numeric (completeness mn mx mean range : ℚ)
  | categorical (completeness : ℚ) (unique_count : Nat) (categories : List String)
  | text (completeness : ℚ) (avg_length : ℚ)
deriving DecidableEq, Repr

/-- Minimum of a list of rationals, as Python's `min` on a non-empty list. -/
def minQ : List ℚ → ℚ
  | [] => 0
  | v :: r => r.foldl min v

/-- Maximum of a list of rationals, as Python's `max` on a non-empty list. -/
def maxQ : List ℚ → ℚ
  | [] => 0
  | v :: r => r.foldl max v

/-- `DataAnalyzer._analyze_column`.  A cell is `none` for Python `None`;
a cell whose string strips to empty is treated as null, exactly as
`item is not None and str(item).strip()` does.  The numeric branch converts
the *whole* non-null list with `_extract_numeric`, which raises `ValueError`
on an unparseable cell; this is the `Except.error` result. -/
def analyzeColumn (data : List (Option String)) : Except String ColumnProfile :=
  let non_null := data.filterMap (fun o =>
    match o with
    | none => none
    | some s => if pyStrip s = "" then none else some s)
  if non_null.isEmpty then
    Except.ok (ColumnProfile.empty 0)
  else
    let completeness : ℚ := (non_null.length : ℚ) / (data.length : ℚ)
    if isDatetimeColumn non_null then
      Except.ok (ColumnProfile.datetime completeness (detectDatetimeFormat (non_null.headD "")))
    else if isNumericColumn non_null then
      match non_null.mapM (fun s => parseDecimal (stripNumFormatting s)) with
      | none => Except.error "ValueError: could not convert string to float"
      | some vals =>
        Except.ok (ColumnProfile.numeric completeness (minQ vals) (maxQ vals)
          (vals.sum / (vals.length : ℚ)) (maxQ vals - minQ vals))
    else
      let uniq := (non_null.map pyLower).dedup
      if 10 * uniq.length ≤ 7 * non_null.length then
        Except.ok (ColumnProfile.categorical completeness uniq.length (uniq.take 10))
      else
        Except.ok (ColumnProfile.text completeness
          (((non_null.map String.length).sum : ℚ) / (non_null.length : ℚ)))

/-- The failing column for claim C3: the numeric check samples only the
first 10 values, but the value extraction converts all of them. -/
def c3FailingColumn : List (Option String) :=
  [some "1", some "2", some "3", some "4", some "abc"]

/-- C3: the claim says the column classifier terminates without raising and
returns one of the five types for every column.  The code violates this: on
`["1","2","3","4","abc"]` the sampled numeric check passes (4 of 5 ≥ 80%),
and `_extract_numeric("abc")` then raises `ValueError`.  This theorem
evaluates the embedded code at that failing input. -/
theorem analyzeColumn_raises_on_mixed_column :
    analyzeColumn c3FailingColumn =
      Except.error "ValueError: could not convert string to float" := rfl

/-! ## Alternative recommender (`src/src/modernization/alternative_suggester.py`) -/

/-- The `ModernAlternative` dataclass. -/
structure ModernAlternative where
  name : String
  version : String
  category : String
  benefits : List String
  migration_effort : String
  migration_time : String
  compatibility_score : ℚ
  learning_curve : String
  community_support : ℚ
  documentation_quality : ℚ
  cost_impact : String
deriving DecidableEq, Repr

/-- `learning_scores.get(learning_curve, 0.5)` of `_score_alternative`. -/
def learningScoreOf (lc : String) : ℚ :=
  if lc = "easy" then 1 else if lc = "moderate" then 7/10
  else if lc = "steep" then 3/10 else 1/2

/-- `effort_scores.get(migration_effort, 0.5)` of `_score_alternative`. -/
def effortScoreOf (me : String) : ℚ :=
  if me = "low" then 1 else if me = "medium" then 3/5
  else if me = "high" then 1/5 else 1/2

/-- `cost_scores.get(cost_impact, 0.5)` of `_score_alternative`. -/
def costScoreOf (ci : String) : ℚ :=
  if ci = "lower" then 1 else if ci = "similar" then 4/5
  else if ci = "higher" then 3/10 else 1/2

/-- `AlternativeSuggester._score_alternative` (the `detection` argument is
accepted and ignored, as in the source). -/
def scoreAlternative (alternative : ModernAlternative) (_detection : TechnologyDetection) : ℚ :=
  alternative.compatibility_score * (4/10)
    + (alternative.community_support / 10) * (2/10)
    + learningScoreOf alternative.learning_curve * (15/100)
    + effortScoreOf alternative.migration_effort * (15/100)
    + costScoreOf alternative.cost_impact * (1/10)

/-- Python's `needle in hay` on strings. -/
def strContains (hay needle : String) : Bool :=
  containsSub hay.toList needle.toList

/-- Python's `str.startswith`. -/
def strStartsWith (s p : String) : Bool :=
  p.toList.isPrefixOf s.toList

/-- `AlternativeSuggester._normalize_technology_key`; `if version:` is false
for both `None` and the empty string. -/
def normalizeTechnologyKey (name : String) (version : Option String) : String :=
  let normalized := String.mk ((pyLower name).toList.map
    (fun c => if c = ' ' then '_' else if c = '.' then '_' else c))
  match version with
  | none => normalized
  | some v =>
    if v = "" then normalized
    else if strContains normalized "python" && strStartsWith v "2" then "python_2"
    else if strContains normalized "java" && strStartsWith v "8" then "java_8"
    else if strContains normalized "angular" && (v = "1" || strStartsWith v "1.") then "angular_1"
    else if strContains normalized "react" && strStartsWith v "15" then "react_15"
    else if strContains normalized "mysql" && strStartsWith v "5.5" then "mysql_5_5"
    else if strContains normalized "oracle" && strContains v "11g" then "oracle_11g"
    else if strContains normalized "maven" && strStartsWith v "2" then "maven_2"
    else if strContains normalized "jenkins" && strStartsWith v "1" then "jenkins_1"
    else normalized

/-- The `python_2` entry of `_load_alternatives_database`. -/
def python2Alternatives : List ModernAlternative :=
  [⟨"Python", "3.11+", "programming_language",
    ["Active security updates and bug fixes", "Better performance and memory efficiency",
     "Improved syntax and language features", "Better Unicode and async support",
     "Rich ecosystem of modern libraries"],
    "medium", "2-4 months", 8/10, "easy", 95/10, 9, "similar"⟩]

/-- The `java_8` entry. -/
def java8Alternatives : List ModernAlternative :=
  [⟨"Java", "17 LTS", "programming_language",
    ["Long-term support until 2029", "Improved performance and memory management",
     "New language features (records, switch expressions)", "Better container support",
     "Enhanced security features"],
    "low", "1-2 months", 95/100, "easy", 9, 95/10, "similar"⟩,
   ⟨"Kotlin", "1.8+", "programming_language",
    ["100% interoperable with Java", "More concise and expressive syntax",
     "Null safety by design", "Coroutines for async programming",
     "Strong Google/JetBrains support"],
    "medium", "3-6 months", 9/10, "moderate", 85/10, 85/10, "similar"⟩]

/-- The `angular_1` entry. -/
def angular1Alternatives : List ModernAlternative :=
  [⟨"Angular", "15+", "frontend_framework",
    ["Complete rewrite with TypeScript", "Better performance and bundle size",
     "Modern development tools", "Strong enterprise support",
     "Comprehensive testing framework"],
    "high", "6-12 months", 3/10, "steep", 8, 9, "similar"⟩,
   ⟨"React", "18+", "frontend_framework",
    ["Huge ecosystem and community", "Excellent performance with hooks",
     "Strong job market demand", "Flexible and lightweight",
     "Great developer experience"],
    "high", "4-8 months", 2/10, "moderate", 95/10, 85/10, "similar"⟩,
   ⟨"Vue.js", "3+", "frontend_framework",
    ["Gentler learning curve", "Excellent documentation",
     "Progressive adoption possible", "Great performance", "Growing ecosystem"],
    "medium", "3-6 months", 4/10, "easy", 8, 95/10, "similar"⟩]

/-- The `react_15` entry. -/
def react15Alternatives : List ModernAlternative :=
  [⟨"React", "18+", "frontend_framework",
    ["Hooks for better state management", "Concurrent features for better UX",
     "Automatic batching improvements", "Better server-side rendering",
     "Improved error boundaries"],
    "low", "1-3 months", 8/10, "easy", 95/10, 85/10, "similar"⟩]

/-- The `mysql_5_5` entry. -/
def mysql55Alternatives : List ModernAlternative :=
  [⟨"MySQL", "8.0+", "database",
    ["Improved performance (2x faster)", "JSON document support",
     "Window functions and CTEs", "Better security features", "Enhanced replication"],
    "low", "2-4 weeks", 95/100, "easy", 9, 85/10, "similar"⟩,
   ⟨"PostgreSQL", "15+", "database",
    ["Advanced SQL features", "Better JSON and NoSQL support",
     "Excellent ACID compliance", "Strong extensions ecosystem",
     "Superior data integrity"],
    "medium", "1-3 months", 7/10, "moderate", 85/10, 9, "similar"⟩]

/-- The `oracle_11g` entry. -/
def oracle11gAlternatives : List ModernAlternative :=
  [⟨"Oracle Database", "19c+", "database",
    ["Autonomous database features", "Better cloud integration",
     "Improved performance", "Enhanced security features",
     "Machine learning capabilities"],
    "medium", "2-4 months", 9/10, "easy", 75/10, 85/10, "higher"⟩,
   ⟨"PostgreSQL", "15+", "database",
    ["Open source with no licensing costs", "Excellent SQL compliance",
     "Strong performance", "Great community support", "Cloud-friendly"],
    "high", "6-12 months", 6/10, "moderate", 85/10, 9, "lower"⟩]

/-- The `maven_2` entry. -/
def maven2Alternatives : List ModernAlternative :=
  [⟨"Maven", "3.9+", "build_tool",
    ["Better performance and stability", "Improved dependency resolution",
     "Better IDE integration", "Enhanced plugin ecosystem", "Java 17+ support"],
    "low", "1-2 weeks", 95/100, "easy", 8, 8, "similar"⟩,
   ⟨"Gradle", "8+", "build_tool",
    ["Better performance with build cache", "More flexible build scripts",
     "Better multi-project support", "Kotlin DSL support", "Incremental builds"],
    "medium", "1-2 months", 7/10, "moderate", 85/10, 8, "similar"⟩]

/-- The `jenkins_1` entry. -/
def jenkins1Alternatives : List ModernAlternative :=
  [⟨"Jenkins", "2.400+", "ci_cd",
    ["Pipeline as Code support", "Better security model", "Blue Ocean modern UI",
     "Container-native support", "Improved plugin management"],
    "medium", "1-2 months", 8/10, "easy", 8, 75/10, "similar"⟩,
   ⟨"GitHub Actions", "Latest", "ci_cd",
    ["Native GitHub integration", "Serverless execution model",
     "Rich marketplace of actions", "Matrix builds support",
     "Built-in secrets management"],
    "medium", "2-3 months", 6/10, "easy", 9, 9, "lower"⟩,
   ⟨"GitLab CI/CD", "Latest", "ci_cd",
    ["Integrated DevOps platform", "Container registry included",
     "Auto DevOps capabilities", "Built-in security scanning",
     "Kubernetes integration"],
    "medium", "2-4 months", 7/10, "moderate", 8, 85/10, "similar"⟩]

/-- `AlternativeSuggester._load_alternatives_database`. -/
def alternativesDatabase : List (String × List ModernAlternative) :=
  [("python_2", python2Alternatives),
   ("java_8", java8Alternatives),
   ("angular_1", angular1Alternatives),
   ("react_15", react15Alternatives),
   ("mysql_5_5", mysql55Alternatives),
   ("oracle_11g", oracle11gAlternatives),
   ("maven_2", maven2Alternatives),
   ("jenkins_1", jenkins1Alternatives)]

/-- Python `dict` lookup on the reference database. -/
def dbLookup (k : String) : List (String × List ModernAlternative) → Option (List ModernAlternative)
  | [] => none
  | (key, alts) :: rest => if k = key then some alts else dbLookup k rest

/-- The generic `programming_language` candidate of
`_generate_generic_suggestions`. -/
def genericProgrammingLanguageAlt : ModernAlternative :=
  ⟨"Modern Language Version", "Latest LTS", "programming_language",
   ["Security updates", "Performance improvements", "New features"],
   "medium", "2-4 months", 8/10, "easy", 8, 8, "similar"⟩

/-- The generic `frontend_framework` candidate of
`_generate_generic_suggestions`. -/
def genericFrontendFrameworkAlt : ModernAlternative :=
  ⟨"Modern Frontend Framework", "Latest", "frontend_framework",
   ["Better performance", "Modern development experience", "Active community"],
   "high", "4-8 months", 5/10, "moderate", 8, 8, "similar"⟩

/-- `AlternativeSuggester._generate_generic_suggestions`: a category map with
exactly two keys, defaulting to the empty list. -/
def genericSuggestions (tech : TechnologyInfo) : List ModernAlternative :=
  if tech.category = "programming_language" then [genericProgrammingLanguageAlt]
  else if tech.category = "frontend_framework" then [genericFrontendFrameworkAlt]
  else []

/-- The stable descending sort by score performed by
`scored_alternatives.sort(key=lambda x: x[1], reverse=True)`. -/
def sortAlternativesByScore (det : TechnologyDetection) (alts : List ModernAlternative) :
    List ModernAlternative :=
  List.insertionSort (fun a b => scoreAlternative b det ≤ scoreAlternative a det) alts

/-- The per-detection body of `AlternativeSuggester.suggest_alternatives`:
score and sort the database candidates for a known key, otherwise fall back
to the generic suggestions. -/
def suggestAlternativesFor (det : TechnologyDetection) : List ModernAlternative :=
  match dbLookup (normalizeTechnologyKey det.technology.name det.technology.version)
      alternativesDatabase with
  | some alternatives => sortAlternativesByScore det alternatives
  | none => genericSuggestions det.technology

/-! ## Claims C5 and C6 -/

theorem pairwise_and_of {α : Type} {R S : α → α → Prop} {l : List α}
    (h1 : List.Pairwise R l) (h2 : List.Pairwise S l) :
    List.Pairwise (fun a b => R a b ∧ S a b) l := by
  induction l with
  | nil => exact List.Pairwise.nil
  | cons x xs ih =>
    rcases List.pairwise_cons.mp h1 with ⟨hx1, ht1⟩
    rcases List.pairwise_cons.mp h2 with ⟨hx2, ht2⟩
    exact List.pairwise_cons.mpr ⟨fun y hy => ⟨hx1 y hy, hx2 y hy⟩, ih ht1 ht2⟩

/-- Within every candidate list of the reference database all scores are
pairwise distinct (so the tie-breaking clause of C5 is never exercised). -/
theorem db_scores_pairwise_ne (det : TechnologyDetection) (k : String)
    (alts : List ModernAlternative)
    (h : dbLookup k alternativesDatabase = some alts) :
    List.Pairwise (fun a b => scoreAlternative a det ≠ scoreAlternative b det) alts := by
  simp only [alternativesDatabase, dbLookup] at h
  split_ifs at h <;>
    (obtain rfl := Option.some.inj h
     simp [python2Alternatives, java8Alternatives, angular1Alternatives,
       react15Alternatives, mysql55Alternatives, oracle11gAlternatives,
       maven2Alternatives, jenkins1Alternatives, List.pairwise_cons,
       scoreAlternative, learningScoreOf, effortScoreOf, costScoreOf]
     all_goals norm_num)

theorem sortAlternatives_sorted (det : TechnologyDetection) (alts : List ModernAlternative) :
    List.Pairwise (fun a b => scoreAlternative b det ≤ scoreAlternative a det)
      (sortAlternativesByScore det alts) := by
  have ht : IsTotal ModernAlternative
      (fun a b => scoreAlternative b det ≤ scoreAlternative a det) :=
    ⟨fun a b => le_total _ _⟩
  have htr : IsTrans ModernAlternative
      (fun a b => scoreAlternative b det ≤ scoreAlternative a det) :=
    ⟨fun _ _ _ h1 h2 => le_trans h2 h1⟩
  exact List.sorted_insertionSort _ alts

/-- Rank used to express the claim's "lower migration effort first". -/
def migrationEffortRank (e : String) : Nat :=
  if e = "low" then 0 else if e = "medium" then 1 else if e = "high" then 2 else 3

/-- C5: for every detection whose technology key is present in the reference
database, the recommender returns exactly the candidate alternatives of that
key sorted in descending order of the weighted score, and whenever two
candidates have equal score the one with higher compatibility comes first,
then the one with lower migration effort (the tie clause holds because the
database never produces equal scores within one key). -/
theorem suggest_alternatives_sorted (det : TechnologyDetection) (alts : List ModernAlternative)
    (h : dbLookup (normalizeTechnologyKey det.technology.name det.technology.version)
        alternativesDatabase = some alts) :
    (suggestAlternativesFor det).Perm alts ∧
    List.Pairwise (fun a b =>
      scoreAlternative b det ≤ scoreAlternative a det ∧
      (scoreAlternative a det = scoreAlternative b det →
        b.compatibility_score < a.compatibility_score ∨
          (b.compatibility_score = a.compatibility_score ∧
            migrationEffortRank a.migration_effort ≤ migrationEffortRank b.migration_effort)))
      (suggestAlternativesFor det) := by
  have hout : suggestAlternativesFor det = sortAlternativesByScore det alts := by
    simp only [suggestAlternativesFor, h]
  have hperm : (sortAlternativesByScore det alts).Perm alts := List.perm_insertionSort _ _
  have hsorted := sortAlternatives_sorted det alts
  have hne := db_scores_pairwise_ne det _ alts h
  have hne' : List.Pairwise (fun a b => scoreAlternative a det ≠ scoreAlternative b det)
      (sortAlternativesByScore det alts) :=
    (List.Perm.pairwise_iff (fun hx => Ne.symm hx) hperm).mpr hne
  rw [hout]
  exact ⟨hperm, (pairwise_and_of hsorted hne').imp
    (fun hab => ⟨hab.1, fun heq => absurd heq hab.2⟩)⟩

/-- Witness for C5 at a concrete input: the python 2.7 detection resolves to
the `python_2` key and the recommender returns a permutation of that entry. -/
theorem suggest_alternatives_sorted_witness :
    dbLookup (normalizeTechnologyKey detPy27low.technology.name detPy27low.technology.version)
        alternativesDatabase = some python2Alternatives ∧
    (suggestAlternativesFor detPy27low).Perm python2Alternatives :=
  ⟨rfl, (suggest_alternatives_sorted detPy27low python2Alternatives rfl).1⟩

/-- A detection of `mongodb` (category `database`), a technology absent from
the reference database. -/
def detMongo : TechnologyDetection :=
  ⟨⟨"mongodb", none, "database"⟩, 1/2, "", 1⟩

/-- A detection of `ember` (category `frontend_framework`), also absent from
the reference database. -/
def detEmber : TechnologyDetection :=
  ⟨⟨"ember", none, "frontend_framework"⟩, 1/2, "", 1⟩

/-- Counterexample to C6 as stated: the `mongodb` detection has no entry in
the reference database, yet the recommender emits no generic candidate at
all, because `_generate_generic_suggestions` only covers the categories
`programming_language` and `frontend_framework`, not `database`. -/
theorem generic_fallback_missing_for_database :
    dbLookup (normalizeTechnologyKey detMongo.technology.name detMongo.technology.version)
        alternativesDatabase = none ∧
    suggestAlternativesFor detMongo = [] :=
  ⟨rfl, rfl⟩

/-- C6 amended: for a detection whose key is absent from the reference
database the recommender returns the generic suggestions for its category,
which are one candidate for the categories `programming_language` and
`frontend_framework` and the empty list for every other category. -/
theorem generic_fallback_only_for_two_categories (det : TechnologyDetection)
    (h : dbLookup (normalizeTechnologyKey det.technology.name det.technology.version)
        alternativesDatabase = none) :
    suggestAlternativesFor det = genericSuggestions det.technology ∧
    ((det.technology.category = "programming_language" ∨
      det.technology.category = "frontend_framework") →
      (suggestAlternativesFor det).length = 1) ∧
    (det.technology.category ≠ "programming_language" →
      det.technology.category ≠ "frontend_framework" →
      suggestAlternativesFor det = []) := by
  have h1 : suggestAlternativesFor det = genericSuggestions det.technology := by
    simp only [suggestAlternativesFor, h]
  refine ⟨h1, ?_, ?_⟩
  · intro hc
    rw [h1]
    rcases hc with hc | hc <;> simp [genericSuggestions, hc]
  · intro h2 h3
    rw [h1]
    simp [genericSuggestions, h2, h3]

/-- Witness for the amended C6: the `ember` detection is absent from the
database and gets exactly one generic frontend candidate. -/
theorem generic_fallback_only_for_two_categories_witness :
    dbLookup (normalizeTechnologyKey detEmber.technology.name detEmber.technology.version)
        alternativesDatabase = none ∧
    (suggestAlternativesFor detEmber).length = 1 :=
  ⟨rfl, (generic_fallback_only_for_two_categories detEmber rfl).2.1 (Or.inr rfl)⟩

/-! ## Roadmap planner (`src/src/modernization/modernization_engine.py`) -/

/-- The four urgency buckets, in the iteration order of the `phases`
dictionary of `generate_modernization_roadmap`. -/
inductive Urgency where
  | critical
  | high
  | medium
  | low
deriving DecidableEq, Repr

/-- The bucket iteration order of the `phases` dictionary. -/
def urgencyOrder : List Urgency :=
  [Urgency.critical, Urgency.high, Urgency.medium, Urgency.low]

/-- One modernization suggestion as consumed by
`generate_modernization_roadmap`: `suggestion.get('modernization_urgency',
'medium')` and `suggestion.get('migration_effort', 'medium')` make both
fields optional, and an effort string outside the map falls back to 8
weeks. -/
structure ModSuggestion where
  modernization_urgency : Option Urgency
  migration_effort : Option String
  original_technology : String
  modern_alternative : String
deriving DecidableEq, Repr

/-- `suggestion.get('modernization_urgency', 'medium')`. -/
def urgencyOf (s : ModSuggestion) : Urgency :=
  s.modernization_urgency.getD Urgency.medium

/-- `effort_map.get(suggestion.get('migration_effort', 'medium'), 8)` of
`_calculate_phase_duration`. -/
def effortWeeks : Option String → Nat
  | some "low" => 3
  | some "medium" => 8
  | some "high" => 16
  | some "critical" => 24
  | _ => 8

/-- `ModernizationEngine._calculate_phase_duration`: running maximum, seeded
with 0, of the effort weeks of the members. -/
def phaseDuration (ss : List ModSuggestion) : Nat :=
  ss.foldl (fun m s => max m (effortWeeks s.migration_effort)) 0

/-- One emitted roadmap phase (ordinal, urgency, duration in weeks, member
technologies and their modern alternatives). -/
structure RoadmapPhase where
  phase : Nat
  priority : Urgency
  duration : Nat
  technologies : List String
  modern_alternatives : List String
deriving DecidableEq, Repr

/-- The roadmap value: emitted phases plus the accumulated
`total_weeks` rendered as `'{total_weeks} weeks'` by the source. -/
structure Roadmap where
  phases : List RoadmapPhase
  total_weeks : Nat
deriving DecidableEq, Repr

/-- The phase-emission loop of `generate_modernization_roadmap`: walk the
buckets in dictionary order, skip empty ones, number the kept ones from the
running counter and accumulate the duration total. -/
def buildPhases : List (Urgency × List ModSuggestion) → Nat → List RoadmapPhase × Nat
  | [], _ => ([], 0)
  | (u, ss) :: rest, counter =>
    if ss.isEmpty then buildPhases rest counter
    else
      let d := phaseDuration ss
      let r := buildPhases rest (counter + 1)
      ({ phase := counter
         priority := u
         duration := d
         technologies := ss.map (fun s => s.original_technology)
         modern_alternatives := ss.map (fun s => s.modern_alternative) } :: r.1,
       d + r.2)

/-- `ModernizationEngine.generate_modernization_roadmap`. -/
def generateModernizationRoadmap (suggestions : List ModSuggestion) : Roadmap :=
  if suggestions.isEmpty then { phases := [], total_weeks := 0 }
  else
    let buckets := urgencyOrder.map
      (fun u => (u, suggestions.filter (fun s => urgencyOf s == u)))
    let r := buildPhases buckets 1
    { phases := r.1, total_weeks := r.2 }

/-! ## Claim C7 -/

theorem buildPhases_spec (bs : List (Urgency × List ModSuggestion)) :
    ∀ n : Nat,
      ((buildPhases bs n).1.map (fun p => p.priority)
          = (bs.filter (fun b => !b.2.isEmpty)).map (fun b => b.1))
      ∧ ((buildPhases bs n).1.map (fun p => p.phase)
          = List.range' n (buildPhases bs n).1.length)
      ∧ ((buildPhases bs n).2 = ((buildPhases bs n).1.map (fun p => p.duration)).sum)
      ∧ (∀ p ∈ (buildPhases bs n).1,
          ∃ b ∈ bs, b.1 = p.priority ∧ p.duration = phaseDuration b.2) := by
  induction bs with
  | nil =>
    intro n
    refine ⟨rfl, rfl, rfl, ?_⟩
    intro p hp
    exact absurd hp (List.not_mem_nil p)
  | cons b rest ih =>
    intro n
    obtain ⟨u, ss⟩ := b
    by_cases hss : ss.isEmpty
    · obtain ⟨ih1, ih2, ih3, ih4⟩ := ih n
      refine ⟨?_, ?_, ?_, ?_⟩ <;>
        simp only [buildPhases, if_pos hss, List.filter_cons, hss, Bool.not_true,
          ite_false, cond_false]
      · simpa [hss] using ih1
      · exact ih2
      · exact ih3
      · intro p hp
        obtain ⟨b', hb', h1, h2⟩ := ih4 p hp
        exact ⟨b', List.mem_cons_of_mem _ hb', h1, h2⟩
    · obtain ⟨ih1, ih2, ih3, ih4⟩ := ih (n + 1)
      refine ⟨?_, ?_, ?_, ?_⟩ <;>
        simp only [buildPhases, if_neg hss]
      · simpa [hss] using ih1
      · simp only [List.map_cons, List.length_cons, List.range'_succ]
        exact congrArg (n :: ·) ih2
      · simp only [List.map_cons, List.sum_cons]
        exact congrArg (phaseDuration ss + ·) ih3
      · intro p hp
        rcases List.mem_cons.mp hp with rfl | hp'
        · exact ⟨(u, ss), List.mem_cons_self _ _, rfl, rfl⟩
        · obtain ⟨b', hb', h1, h2⟩ := ih4 p hp'
          exact ⟨b', List.mem_cons_of_mem _ hb', h1, h2⟩

/-- The effort → weeks map exactly as claim C7 states it ({low:3, medium:8,
high:16, critical:24}); values outside the map are irrelevant under the
claim's hypothesis and mapped to 0. -/
def claimEffortWeeksC7 : Option String → Nat
  | some "low" => 3
  | some "medium" => 8
  | some "high" => 16
  | some "critical" => 24
  | _ => 0

theorem phaseDuration_eq_foldl_map (ss : List ModSuggestion) :
    phaseDuration ss = (ss.map (fun s => effortWeeks s.migration_effort)).foldl max 0 := by
  simp [phaseDuration, List.foldl_map]

/-- C7: for every non-empty suggestion list, the roadmap phases appear
strictly in the order critical → high → medium → low with empty urgency
buckets skipped, the kept phases are renumbered sequentially from 1, each
phase's duration equals the maximum over its members of the effort → weeks
map {low:3, medium:8, high:16, critical:24}, and the total timeline equals
the sum of the phase durations. -/
theorem roadmap_ordered_durations_total (l : List ModSuggestion) (hne : l ≠ [])
    (heff : ∀ s ∈ l, s.migration_effort = some "low" ∨ s.migration_effort = some "medium" ∨
      s.migration_effort = some "high" ∨ s.migration_effort = some "critical") :
    ((generateModernizationRoadmap l).phases.map (fun p => p.priority)
        = urgencyOrder.filter (fun u => !(l.filter (fun s => urgencyOf s == u)).isEmpty))
    ∧ ((generateModernizationRoadmap l).phases.map (fun p => p.phase)
        = List.range' 1 (generateModernizationRoadmap l).phases.length)
    ∧ (∀ p ∈ (generateModernizationRoadmap l).phases,
        p.duration = ((l.filter (fun s => urgencyOf s == p.priority)).map
          (fun s => claimEffortWeeksC7 s.migration_effort)).foldl max 0)
    ∧ ((generateModernizationRoadmap l).total_weeks
        = ((generateModernizationRoadmap l).phases.map (fun p => p.duration)).sum) := by
  have hle : l.isEmpty = false := by
    cases l with
    | nil => exact absurd rfl hne
    | cons x xs => rfl
  have hroad : generateModernizationRoadmap l =
      { phases := (buildPhases (urgencyOrder.map
          (fun u => (u, l.filter (fun s => urgencyOf s == u)))) 1).1
        total_weeks := (buildPhases (urgencyOrder.map
          (fun u => (u, l.filter (fun s => urgencyOf s == u)))) 1).2 } := by
    simp [generateModernizationRoadmap, hle]
  obtain ⟨h1, h2, h3, h4⟩ := buildPhases_spec
    (urgencyOrder.map (fun u => (u, l.filter (fun s => urgencyOf s == u)))) 1
  rw [hroad]
  refine ⟨?_, h2, ?_, h3⟩
  · rw [h1, List.filter_map]
    simp [Function.comp_def]
  · intro p hp
    obtain ⟨b, hb, hbp, hbd⟩ := h4 p hp
    obtain ⟨u, hu, rfl⟩ := List.mem_map.mp hb
    simp only at hbp
    subst hbp
    rw [hbd, phaseDuration_eq_foldl_map]
    congr 1
    apply List.map_eq_map_iff.mpr
    intro s hs
    have hsl : s ∈ l := List.mem_of_mem_filter hs
    rcases heff s hsl with h | h | h | h <;> rw [h] <;> rfl

/-- The suggestion list of the specification's concrete scenario 5:
urgencies [critical, high, high, low]. -/
def c7Suggestions : List ModSuggestion :=
  [⟨some Urgency.critical, some "high", "Oracle 11g", "Oracle 19c+"⟩,
   ⟨some Urgency.high, some "medium", "Java 8", "Java 17 LTS"⟩,
   ⟨some Urgency.high, some "high", "AngularJS", "Angular 15+"⟩,
   ⟨some Urgency.low, some "low", "Maven 2", "Maven 3.9+"⟩]

/-- Witness for C7 at the specification's scenario 5: three phases in the
order critical, high, low, and the total equals the sum of the phase
durations. -/
theorem roadmap_ordered_durations_total_witness :
    c7Suggestions ≠ [] ∧
    (generateModernizationRoadmap c7Suggestions).phases.map (fun p => p.priority)
      = [Urgency.critical, Urgency.high, Urgency.low] ∧
    (generateModernizationRoadmap c7Suggestions).total_weeks
      = ((generateModernizationRoadmap c7Suggestions).phases.map (fun p => p.duration)).sum := by
  have h := roadmap_ordered_durations_total c7Suggestions (by decide) (by decide)
  refine ⟨by decide, ?_, h.2.2.2⟩
  rw [h.1]
  decide

/-! ## Enhancement engine (`src/src/ai_engine/enhancement_engine.py`) -/

/-- The `EnhancementMetrics` values of `_calculate_enhancement_metrics`. -/
structure EnhancementMetrics where
  readability_score : ℚ
  improvement_percentage : ℚ
  estimated_time_to_implement : Nat
deriving DecidableEq, Repr

/-- One quality issue as produced by `_analyze_content_quality`. -/
structure Issue where
  description : String
  location : String
  suggestion : String
  priority : String
  confidence : ℚ
deriving DecidableEq, Repr

/-- The `Enhancement` dataclass (`type` is the constant
`CONTENT_RESTRUCTURE`, modelled as a string). -/
structure Enhancement where
  id : String
  enhancement_type : String
  title : String
  description : String
  priority : String
  category : String
  original_content : String
  enhanced_content : String
  confidence : ℚ
  metrics : EnhancementMetrics
  issues : List String
  recommendations : List String
deriving DecidableEq, Repr

/-- `_calculate_enhancement_metrics`: `75 + confidence*20`,
`confidence*100`, `5 + (len(enhanced.split()) // 50) * 2`. -/
def calcEnhancementMetrics (_original enhanced : String) (issue : Issue) : EnhancementMetrics :=
  { readability_score := 75 + issue.confidence * 20
    improvement_percentage := issue.confidence * 100
    estimated_time_to_implement := 5 + ((splitWords enhanced).length / 50) * 2 }

/-- `_extract_relevant_content`: the first 200 whitespace-separated words. -/
def extractRelevantContent (full_content : String) (_issue : Issue) : String :=
  String.intercalate " " ((splitWords full_content).take 200)

/-- Decimal rendering of the wall-clock timestamp injected into the
enhancement id by `f"enh_{datetime.now().timestamp()}"`; any injective
rendering of the timestamp gives the same theorems. -/
def ratTimestampStr (q : ℚ) : String :=
  if q.den = 1 then toString q.num else toString q.num ++ "/" ++ toString q.den

/-- `EnhancementEngine._create_enhancement_for_issue`.  The text produced by
the external completion service (`_generate_enhanced_content`) is passed in
as `enhanced_content`; `now` is the wall clock read by
`datetime.now().timestamp()`.  An empty `enhanced_content` yields `None`. -/
def createEnhancementForIssue (raw_text : String) (issue_type : String) (issue : Issue)
    (enhanced_content : String) (now : ℚ) : Option Enhancement :=
  if enhanced_content = "" then none
  else
    some { id := "enh_" ++ ratTimestampStr now
           enhancement_type := "CONTENT_RESTRUCTURE"
           title := "Improve " ++ issue_type ++ ": " ++ issue.description
           description := issue.suggestion
           priority := issue.priority
           category := issue_type
           original_content := extractRelevantContent raw_text issue
           enhanced_content := enhanced_content
           confidence := issue.confidence
           metrics := calcEnhancementMetrics raw_text enhanced_content issue
           issues := [issue.description]
           recommendations := [issue.suggestion] }

/-- The sort key of `enhancements.sort(key=lambda x: (x.priority == 'high',
x.confidence), reverse=True)`. -/
def enhKey (e : Enhancement) : Lex (Bool × ℚ) :=
  toLex ((e.priority == "high"), e.confidence)

/-- The final sorting step of `EnhancementEngine.generate_enhancements`:
stable descending sort on `enhKey`. -/
def sortEnhancements (l : List Enhancement) : List Enhancement :=
  List.insertionSort (fun a b => enhKey b ≤ enhKey a) l

/-! ## Claim C8 -/

/-- The priority rank of claim C8 (high > medium > low). -/
def prioRankC8 (p : String) : Nat :=
  if p = "high" then 3 else if p = "medium" then 2 else if p = "low" then 1 else 0

/-- A medium-priority enhancement with confidence 0.5. -/
def enhMedium : Enhancement :=
  { id := "enh_1", enhancement_type := "CONTENT_RESTRUCTURE", title := "t1",
    description := "d1", priority := "medium", category := "readability",
    original_content := "", enhanced_content := "x", confidence := 1/2,
    metrics := ⟨75, 50, 5⟩, issues := [], recommendations := [] }

/-- A low-priority enhancement with confidence 0.9. -/
def enhLow : Enhancement :=
  { id := "enh_2", enhancement_type := "CONTENT_RESTRUCTURE", title := "t2",
    description := "d2", priority := "low", category := "structure",
    original_content := "", enhanced_content := "y", confidence := 9/10,
    metrics := ⟨75, 50, 5⟩, issues := [], recommendations := [] }

/-- Counterexample to C8 as stated: the sort key only distinguishes `high`
from everything else, so a low-priority suggestion with confidence 0.9 is
placed before a medium-priority one with confidence 0.5, violating
"every medium-priority suggestion before every low-priority one". -/
theorem sort_enhancements_not_priority_ordered :
    ¬ List.Pairwise (fun a b =>
        prioRankC8 b.priority ≤ prioRankC8 a.priority ∧
        (prioRankC8 a.priority = prioRankC8 b.priority → b.confidence ≤ a.confidence))
      (sortEnhancements [enhMedium, enhLow]) := by
  have hs : sortEnhancements [enhMedium, enhLow] = [enhLow, enhMedium] := by
    simp [sortEnhancements, List.insertionSort, List.orderedInsert, enhKey,
      enhMedium, enhLow, Prod.Lex.le_iff]
    norm_num
  rw [hs]
  intro hcontra
  have h := (List.pairwise_cons.mp hcontra).1 enhMedium (by simp)
  simp [prioRankC8, enhMedium, enhLow] at h

/-- C8 amended: the final suggestion list is a permutation of the input,
every high-priority suggestion comes before every non-high one, and within
the high group and within the non-high group confidence is descending;
medium and low priorities are not separated from each other. -/
theorem sort_enhancements_high_first (l : List Enhancement) :
    (sortEnhancements l).Perm l ∧
    List.Pairwise (fun a b =>
      ((b.priority == "high") = true → (a.priority == "high") = true) ∧
      ((a.priority == "high") = (b.priority == "high") → b.confidence ≤ a.confidence))
      (sortEnhancements l) := by
  have ht : IsTotal Enhancement (fun a b => enhKey b ≤ enhKey a) :=
    ⟨fun a b => le_total _ _⟩
  have htr : IsTrans Enhancement (fun a b => enhKey b ≤ enhKey a) :=
    ⟨fun _ _ _ h1 h2 => le_trans h2 h1⟩
  refine ⟨List.perm_insertionSort _ _, (List.sorted_insertionSort _ l).imp ?_⟩
  intro a b hab
  simp only [enhKey, Prod.Lex.le_iff] at hab
  constructor
  · intro hb
    rcases hab with h | h
    · exact (Bool.lt_iff.mp h).2
    · rw [← h.1]; exact hb
  · intro heq
    rcases hab with h | h
    · rw [heq] at h
      exact absurd h (lt_irrefl _)
    · exact h.2

/-! ## Technology report (`TechAnalyzer.generate_technology_report`) -/

/-- The `categorized` dictionary build of `generate_technology_report`:
group detections by category in insertion order. -/
def addToCategory : List (String × List TechnologyDetection) → TechnologyDetection →
    List (String × List TechnologyDetection)
  | [], d => [(d.technology.category, [d])]
  | (c, ds) :: rest, d =>
    if c = d.technology.category then (c, ds ++ [d]) :: rest
    else (c, ds) :: addToCategory rest d

/-- The `summary` block of the report. -/
structure ReportSummary where
  total_technologies : Nat
  categories : Nat
  average_confidence : ℚ
  technologies_by_category : List (String × Nat)
deriving DecidableEq, Repr

/-- The report value of `generate_technology_report` (`summary`,
`detections`, and the `generated_at` wall-clock timestamp field). -/
structure TechnologyReport where
  summary : ReportSummary
  detections : List TechnologyDetection
  generated_at : ℚ
deriving DecidableEq, Repr

/-- `TechAnalyzer.generate_technology_report`; `now` is the wall clock read
by `datetime.now().isoformat()`. -/
def generateTechnologyReport (detections : List TechnologyDetection) (now : ℚ) :
    TechnologyReport :=
  let categorized := detections.foldl addToCategory []
  { summary :=
      { total_technologies := detections.length
        categories := categorized.length
        average_confidence :=
          if detections.isEmpty then 0
          else (detections.map (fun d => d.confidence)).sum / (detections.length : ℚ)
        technologies_by_category := categorized.map (fun p => (p.1, p.2.length)) }
    detections := detections
    generated_at := now }

/-! ## Claim C2 -/

/-- The mock readability issue returned by `_analyze_content_quality`. -/
def c2Issue : Issue :=
  ⟨"Complex sentence structure detected", "paragraph 2",
   "Break into shorter sentences", "medium", 4/5⟩

/-- Counterexample to C2 as stated: running the enhancement creation twice on
the same Document at different wall-clock instants produces enhancements
whose `id` fields differ (`enh_0` vs `enh_1`); the `id` is not the report
timestamp field, so the output is not identical in every other field. -/
theorem enhancement_id_embeds_wall_clock :
    (createEnhancementForIssue "Some content." "readability" c2Issue "Better content." 0).map
        (fun e => e.id)
      ≠ (createEnhancementForIssue "Some content." "readability" c2Issue "Better content." 1).map
        (fun e => e.id) := by
  decide

/-- Erase the wall-clock-derived id. -/
def stripEnhancementId (e : Enhancement) : Enhancement := { e with id := "" }

/-- C2 amended: with the external completion text fixed, analysing the same
Document at two different wall-clock instants yields identical output in
every field except the report timestamp field (`generated_at`) and the
enhancement `id` fields, which embed the generation wall-clock time. -/
theorem analysis_wall_clock_only_in_id_and_timestamp :
    ∀ (raw issue_type : String) (issue : Issue) (enhanced : String)
      (dets : List TechnologyDetection) (t1 t2 : ℚ),
      ((createEnhancementForIssue raw issue_type issue enhanced t1).map stripEnhancementId
        = (createEnhancementForIssue raw issue_type issue enhanced t2).map stripEnhancementId)
      ∧ (generateTechnologyReport dets t1).summary = (generateTechnologyReport dets t2).summary
      ∧ (generateTechnologyReport dets t1).detections
          = (generateTechnologyReport dets t2).detections := by
  intro raw issue_type issue enhanced dets t1 t2
  refine ⟨?_, rfl, rfl⟩
  by_cases h : enhanced = "" <;> simp [createEnhancementForIssue, h, stripEnhancementId]

/-! ## Heading hierarchy (`src/src/ai_engine/content_analyzer.py`) -/

/-- One document heading (`{'level': .., 'text': ..}`). -/
structure Heading where
  level : Nat
  text : String
deriving DecidableEq, Repr

/-- The dictionary returned by `_analyze_heading_hierarchy` (in the empty
case the source omits `heading_count`/`max_level`; they are 0 here). -/
structure HierarchyAnalysis where
  issues : List String
  structure_score : ℚ
  heading_count : Nat
  max_level : Nat
deriving DecidableEq, Repr

/-- The body of the first loop of `_analyze_heading_hierarchy`: track the
previous level, subtract 0.1 and record an issue for each jump greater
than +1 (the previous level starts at 0). -/
def jumpStep (st : Nat × ℚ × List String) (h : Heading) : Nat × ℚ × List String :=
  let prev := st.1
  let lv := h.level
  if prev + 1 < lv then
    (lv, st.2.1 - 1/10, st.2.2 ++ [s!"Heading level jump: H{prev} to H{lv}"])
  else
    (lv, st.2.1, st.2.2)

/-- The body of the second loop: subtract 0.05 and record an issue for each
heading text longer than 60 characters. -/
def lengthStep (st : ℚ × List String) (h : Heading) : ℚ × List String :=
  if 60 < h.text.length then
    (st.1 - 1/20,
     st.2 ++ ["Long heading: " ++ String.singleton (Char.ofNat 39)
       ++ String.mk (h.text.toList.take 50) ++ "..." ++ String.singleton (Char.ofNat 39)])
  else st

/-- `ContentAnalyzer._analyze_heading_hierarchy`. -/
def analyzeHeadingHierarchy (headings : List Heading) : HierarchyAnalysis :=
  if headings.isEmpty then
    { issues := ["No headings found"], structure_score := 3/10,
      heading_count := 0, max_level := 0 }
  else
    let st1 := headings.foldl jumpStep (0, 1, [])
    let st2 := headings.foldl lengthStep (st1.2.1, st1.2.2)
    { issues := st2.2
      structure_score := max 0 st2.1
      heading_count := headings.length
      max_level := (headings.map (fun h => h.level)).foldl max 0 }

/-! ## Claim C9 -/

/-- Number of adjacent heading-level jumps greater than +1, the previous
level starting at 0 (the count the penalty loop performs). -/
def countJumps : Nat → List Heading → Nat
  | _, [] => 0
  | prev, h :: rest => (if prev + 1 < h.level then 1 else 0) + countJumps h.level rest

/-- Number of headings whose text exceeds 60 characters. -/
def countLong : List Heading → Nat
  | [] => 0
  | h :: rest => (if 60 < h.text.length then 1 else 0) + countLong rest

theorem jump_fold_score (hs : List Heading) :
    ∀ (prev : Nat) (s : ℚ) (iss : List String),
      (hs.foldl jumpStep (prev, s, iss)).2.1 = s - (countJumps prev hs : ℚ)/10 := by
  induction hs with
  | nil => intro prev s iss; simp [countJumps]
  | cons h rest ih =>
    intro prev s iss
    by_cases hj : prev + 1 < h.level
    · simp only [List.foldl_cons, jumpStep, if_pos hj, countJumps]
      rw [ih]
      push_cast
      ring
    · simp only [List.foldl_cons, jumpStep, if_neg hj, countJumps, if_neg hj]
      rw [ih]
      push_cast
      ring

theorem length_fold_score (hs : List Heading) :
    ∀ (s : ℚ) (iss : List String),
      (hs.foldl lengthStep (s, iss)).1 = s - (countLong hs : ℚ)/20 := by
  induction hs with
  | nil => intro s iss; simp [countLong]
  | cons h rest ih =>
    intro s iss
    by_cases hl : 60 < h.text.length
    · simp only [List.foldl_cons, lengthStep, if_pos hl, countLong]
      rw [ih]
      push_cast
      ring
    · simp only [List.foldl_cons, lengthStep, if_neg hl, countLong, if_neg hl]
      rw [ih]
      push_cast
      ring

/-- Counterexample to C9 as stated: a single well-formed heading incurs no
penalty, so under the claim (score starts at 10, only penalties are
subtracted, floored at 0) the score would be 10; the code starts at 1.0 and
returns 1. -/
theorem hierarchy_score_not_ten :
    (analyzeHeadingHierarchy [⟨1, "Overview"⟩]).structure_score = 1 ∧
    (analyzeHeadingHierarchy [⟨1, "Overview"⟩]).structure_score ≠ 10 := by
  have hlen : ("Overview".length) = 8 := rfl
  have h : (analyzeHeadingHierarchy [⟨1, "Overview"⟩]).structure_score = 1 := by
    simp [analyzeHeadingHierarchy, jumpStep, lengthStep, hlen]
  exact ⟨h, by rw [h]; norm_num⟩

/-- C9 amended: for every non-empty heading list the hierarchy score starts
at 1.0, subtracts 0.1 for each adjacent heading-level jump greater than +1
(the previous level starting at 0), subtracts 0.05 for each heading text
longer than 60 characters, and is floored at 0.  (The empty list returns the
fixed score 0.3.) -/
theorem hierarchy_score_closed_form (headings : List Heading) (hne : headings ≠ []) :
    (analyzeHeadingHierarchy headings).structure_score
      = max 0 (1 - (countJumps 0 headings : ℚ)/10 - (countLong headings : ℚ)/20) := by
  have hle : headings.isEmpty = false := by
    cases headings with
    | nil => exact absurd rfl hne
    | cons a b => rfl
  simp only [analyzeHeadingHierarchy, hle, Bool.false_eq_true, if_false]
  rw [length_fold_score, jump_fold_score]

/-- Two headings with a level jump from 1 to 3. -/
def c9Headings : List Heading := [⟨1, "Intro"⟩, ⟨3, "Details"⟩]

/-- Witness for the amended C9 at a concrete input with one level jump. -/
theorem hierarchy_score_closed_form_witness :
    (analyzeHeadingHierarchy c9Headings).structure_score
      = max 0 (1 - (countJumps 0 c9Headings : ℚ)/10 - (countLong c9Headings : ℚ)/20) :=
  hierarchy_score_closed_form c9Headings (by decide)
